import Mathlib

/-!
# Disaster-response app: real-time propagation layer, shallow embedding

Shallow embedding of the core of the `adit301104/disaster` repository:
the client connectivity-fallback layer and event handlers
(frontend `App.jsx`, `src/unnamed/part_000` / `part_001`) and the
server's Express routes and Socket.IO fan-out (`src/backend/app.js`).

Machine integers do not appear on the modelled paths; identities are
strings, counters are naturals.  Timestamp and IP fields of records are
omitted: no claim mentions them and they are opaque strings in the source.
-/

namespace Disaster

/-! ## Connectivity fallback layer (client)

Source: `src/unnamed/part_000`, `apiCall` (lines 44-78).

```js
let API_BASE = PRIMARY_API_URL;
const apiCall = async (endpoint, options = {}) => {
  const tryRequest = async (baseUrl) => { ... if (!response.ok) throw ...; ... };
  try {
    return await tryRequest(API_BASE);
  } catch (error) {
    try {
      const result = await tryRequest(FALLBACK_API_URL);
      if (API_BASE !== FALLBACK_API_URL) {
        API_BASE = FALLBACK_API_URL;
        SOCKET_URL = FALLBACK_API_URL;
      }
      return result;
    } catch (fallbackError) {
      throw new Error(`API Error: Both primary and fallback servers unavailable`);
    }
  }
};
```

The outcome of one HTTP attempt against each endpoint is an oracle
`ok : Endpoint → Bool` (`true` = the fetch resolved with `response.ok`).
-/

inductive Endpoint where
  | primary
  | fallback
deriving DecidableEq, Repr

/-- Result of one `apiCall`: the endpoints attempted (in order), and the
surfaced result (`ok ()` or the single aggregated error string). -/
structure CallOutcome where
  attempts : List Endpoint
  result : Except String Unit
deriving Repr

/-- One `apiCall` from the module-global `API_BASE` value `base`:
try `base`; on failure try the fallback; latch `API_BASE` to fallback on
fallback success; on double failure throw the aggregated error.
Returns the outcome and the new `API_BASE`. -/
def apiCall (ok : Endpoint → Bool) (base : Endpoint) : CallOutcome × Endpoint :=
  if ok base then
    (⟨[base], .ok ()⟩, base)
  else if ok .fallback then
    (⟨[base, .fallback], .ok ()⟩, .fallback)
  else
    (⟨[base, .fallback],
      .error "API Error: Both primary and fallback servers unavailable"⟩, base)

/-- `API_BASE` after a sequence of `apiCall`s, one oracle per call. -/
def runCalls (base : Endpoint) : List (Endpoint → Bool) → Endpoint
  | [] => base
  | ok :: oks => runCalls (apiCall ok base).2 oks

/-- The outcomes of a sequence of `apiCall`s, threading `API_BASE`. -/
def callTrace (base : Endpoint) : List (Endpoint → Bool) → List CallOutcome
  | [] => []
  | ok :: oks => (apiCall ok base).1 :: callTrace (apiCall ok base).2 oks

/-! ## Persistent-connection fallback (client)

Source: `src/unnamed/part_000`, the socket `useEffect` (lines 99-216).

```js
let connectionTimeout;
let socket = connectSocket(SOCKET_URL);
connectionTimeout = setTimeout(() => {
  if (!socketConnected && SOCKET_URL !== FALLBACK_API_URL) {
    SOCKET_URL = FALLBACK_API_URL;
    socket = connectSocket(SOCKET_URL);
    addNotification('Switched to local server', 'info');
  } else if (!socketConnected) {
    addNotification('Real-time features unavailable - using polling mode', 'warning');
  }
}, 8000);
socketRef.current.on('connect', () => {
  setSocketConnected(true); setConnectionAttempts(0);
  if (connectionTimeout) clearTimeout(connectionTimeout);
  addNotification('Connected to real-time updates', 'success');
});
socketRef.current.on('disconnect', () => { setSocketConnected(false); ... });
```

The timeout is armed once at mount and cleared on `connect`; nothing
re-arms it, so the timer fires at most once, and only while no `connect`
has ever fired (the effect's `socketConnected` closure is the mount-time
value `false`; the live guard is the timer still being pending).
`opens` logs each `connectSocket(url)` call.  `switchedNotifs` counts the
`'Switched to local server'` notifications, `pollingNotifs` the
polling-mode warnings. -/

structure SockState where
  url : Endpoint
  connected : Bool
  timerActive : Bool
  opens : List Endpoint
  switchedNotifs : Nat
  pollingNotifs : Nat
deriving DecidableEq, Repr

/-- Mount-time state: socket opened against `SOCKET_URL` (the primary
unless a REST call latched earlier), 8-second fallback timer armed. -/
def sockInit (u : Endpoint) : SockState :=
  ⟨u, false, true, [u], 0, 0⟩

inductive SockEvent where
  | connectOk
  | disconnect
  | timeoutFire
deriving DecidableEq, Repr

/-- One socket-lifecycle event.  A `timeoutFire` against a cleared timer
is a no-op (`clearTimeout` guarantees the callback never runs). -/
def sockStep (s : SockState) : SockEvent → SockState
  | .connectOk => { s with connected := true, timerActive := false }
  | .disconnect => { s with connected := false }
  | .timeoutFire =>
    if s.timerActive then
      if s.url ≠ .fallback then
        { s with timerActive := false, url := .fallback,
                 opens := s.opens ++ [.fallback],
                 switchedNotifs := s.switchedNotifs + 1 }
      else
        { s with timerActive := false, pollingNotifs := s.pollingNotifs + 1 }
    else s

/-- Run a sequence of socket-lifecycle events. -/
def sockRun (s : SockState) : List SockEvent → SockState
  | [] => s
  | e :: es => sockRun (sockStep s e) es

/-- While the timer is armed, no switch notification has been emitted yet. -/
def SockInv (s : SockState) : Prop :=
  (s.timerActive = true → s.switchedNotifs = 0) ∧ s.switchedNotifs ≤ 1

/-! ## Server-side fan-out (Socket.IO rooms)

Source: `src/backend/app.js`.

Subscription registry (lines 1340-1355): each connection's room set,
mutated by `join_disaster` / `leave_disaster`:

```js
socket.on('join_disaster', (disasterId) => { socket.join(`disaster_${disasterId}`); });
socket.on('leave_disaster', (disasterId) => { socket.leave(`disaster_${disasterId}`); });
```

Emission sites:
* `io.emit('report_created', {disaster_id, report})` (line 1017) — all sockets;
* `io.emit('social_media_updated', {disaster_id, data})` (line 843, the
  `GET /disasters/:id/social-media` route) — all sockets;
* `io.to(`disaster_${id}`).emit('social_media_updated', ...)` (line 1402,
  periodic updater) — room only;
* `io.to(`disaster_${id}`).emit('official_updates_updated', ...)` (line 1409,
  periodic updater) — room only;
* `io.emit('disaster_updated', ...)` (lines 657, 793, 825) — all sockets;
* `io.to(`disaster_${id}`).emit('emergency_alert', ...)` (line 1367) /
  `io.emit('emergency_alert', ...)` (line 1374) — room / all;
* `socket.to(`disaster_${id}`).emit('user_location_update', ...)` (line 1357)
  — room, excluding the sender. -/

abbrev ConnId := Nat
abbrev DisasterId := String

/-- The live connections and each connection's room memberships
(`rooms c d = true` iff connection `c` is in room `disaster_d`). -/
structure ServerState where
  conns : List ConnId
  rooms : ConnId → DisasterId → Bool

/-- `socket.on('join_disaster')`: `socket.join` adds the room to the
socket's room set (a `Set`, so re-adding changes nothing). -/
def joinDisaster (st : ServerState) (c : ConnId) (d : DisasterId) : ServerState :=
  { st with rooms := fun c' d' => if c' = c ∧ d' = d then true else st.rooms c' d' }

/-- `socket.on('leave_disaster')`: `socket.leave` removes the room. -/
def leaveDisaster (st : ServerState) (c : ConnId) (d : DisasterId) : ServerState :=
  { st with rooms := fun c' d' => if c' = c ∧ d' = d then false else st.rooms c' d' }

/-- One event emission, tagged by its source site in `app.js`. -/
inductive SocketEvent where
  | reportCreated (disaster_id : DisasterId)
  | socialMediaRoute (disaster_id : DisasterId)
  | socialMediaPeriodic (disaster_id : DisasterId)
  | officialUpdatesPeriodic (disaster_id : DisasterId)
  | disasterUpdated
  | emergencyAlertScoped (disaster_id : DisasterId)
  | emergencyAlertGlobal
  | userLocationUpdate (disaster_id : DisasterId) (sender : ConnId)
deriving DecidableEq, Repr

/-- The connections a given emission is delivered to: `io.emit` reaches
every socket, `io.to(room).emit` only the room's members,
`socket.to(room).emit` the room's members except the sender. -/
def deliver (st : ServerState) : SocketEvent → List ConnId
  | .reportCreated _ => st.conns
  | .socialMediaRoute _ => st.conns
  | .socialMediaPeriodic d => st.conns.filter (fun c => st.rooms c d)
  | .officialUpdatesPeriodic d => st.conns.filter (fun c => st.rooms c d)
  | .disasterUpdated => st.conns
  | .emergencyAlertScoped d => st.conns.filter (fun c => st.rooms c d)
  | .emergencyAlertGlobal => st.conns
  | .userLocationUpdate d sender =>
    (st.conns.filter (fun c => st.rooms c d)).filter (fun c => c ≠ sender)

/-! ## Data records

A disaster row (`supabase_schema.sql` / the mock rows in `app.js`); the
`created_at`, `updated_at`, `location` and audit `timestamp`/`ip_address`
columns are omitted (opaque strings, untouched by every claim). -/

structure AuditEntry where
  action : String
  user_id : String
  changes : List String
deriving DecidableEq, Repr

structure DisasterRec where
  id : String
  title : String
  location_name : String
  description : String
  status : String
  disaster_type : String
  tags : List String
  owner_id : String
  audit_trail : List AuditEntry
deriving DecidableEq, Repr

structure Report where
  id : String
  disaster_id : String
  content : String
deriving DecidableEq, Repr

structure Post where
  id : String
  content : String
deriving DecidableEq, Repr

/-! ## Client sync controller

Source: `src/unnamed/part_000` lines 172-210 (identical handlers in
`part_001` lines 61-99):

```js
socketRef.current.on('disaster_updated', (data) => {
  if (data.action === 'create') {
    setDisasters(prev => [data.disaster, ...prev]);
    addNotification('New disaster reported', 'info');
  } else if (data.action === 'update') {
    setDisasters(prev => prev.map(d => d.id === data.disaster.id ? data.disaster : d));
    addNotification('Disaster updated', 'info');
  }
});
socketRef.current.on('social_media_updated', (data) => {
  if (selectedDisaster?.id === data.disaster_id) {
    setSocialMedia(data.data);
    addNotification('Social media updated', 'success');
  }
});
socketRef.current.on('report_created', (data) => {
  if (selectedDisaster?.id === data.disaster_id) {
    setReports(prev => [data.report, ...prev]);
    addNotification('New report received', 'warning');
  }
});
```
-/

structure ClientState where
  disasters : List DisasterRec
  selected : Option DisasterRec
  socialMedia : List Post
  reports : List Report
  notifications : List (String × String)
deriving DecidableEq, Repr

/-- Payload of a `disaster_updated` emission, one constructor per
`action` value the backend sends (`create` / `update` with the full row,
`delete` with only the id — lines 657, 793, 825 of `app.js`). -/
inductive DisasterAction where
  | create (disaster : DisasterRec)
  | update (disaster : DisasterRec)
  | delete (id : String)
deriving DecidableEq, Repr

/-- The client's `disaster_updated` handler.  The source tests only
`data.action === 'create'` and `'update'`; a `delete` payload matches
neither branch and falls through with no state change. -/
def handleDisasterUpdated (st : ClientState) : DisasterAction → ClientState
  | .create d =>
    { st with disasters := d :: st.disasters,
              notifications := st.notifications ++ [("New disaster reported", "info")] }
  | .update d =>
    { st with disasters := st.disasters.map (fun x => if x.id == d.id then d else x),
              notifications := st.notifications ++ [("Disaster updated", "info")] }
  | .delete _ => st

/-- `selectedDisaster?.id === data.disaster_id`, where `captured` is the
`selectedDisaster` value the handler closed over (`undefined === x` is
false when it is null).

The socket `useEffect` registering these handlers has an empty
dependency array (`}, []` at `part_000` line 216), so the closures
capture the mount-render `selectedDisaster` — `useState(null)` at line
83 — and never see a later selection.  In the running program the
comparand is therefore permanently `none`; the handlers below take it as
a parameter so that both the frozen program instance (`none`) and the
comparison the guard was written to make can be stated. -/
def selectedMatches (captured : Option DisasterRec) (disaster_id : String) : Bool :=
  match captured with
  | some s => s.id == disaster_id
  | none => false

/-- The client's `report_created` handler, closing over `captured`. -/
def handleReportCreated (captured : Option DisasterRec) (st : ClientState)
    (disaster_id : String) (r : Report) : ClientState :=
  if selectedMatches captured disaster_id then
    { st with reports := r :: st.reports,
              notifications := st.notifications ++ [("New report received", "warning")] }
  else st

/-- The client's `social_media_updated` handler, closing over `captured`. -/
def handleSocialMediaUpdated (captured : Option DisasterRec) (st : ClientState)
    (disaster_id : String) (data : List Post) : ClientState :=
  if selectedMatches captured disaster_id then
    { st with socialMedia := data,
              notifications := st.notifications ++ [("Social media updated", "success")] }
  else st

/-- The client's `official_updates_updated` handler (notification only),
closing over `captured`. -/
def handleOfficialUpdates (captured : Option DisasterRec) (st : ClientState)
    (disaster_id : String) : ClientState :=
  if selectedMatches captured disaster_id then
    { st with notifications := st.notifications ++ [("Official updates received", "info")] }
  else st

/-! ## Backend REST routes

Source: `src/backend/app.js`.  The `auth` middleware (lines 119-123)
never rejects: it resolves `x-user-id` against a fixed user table and
defaults to the admin `netrunnerX`, so every request reaches the handler
with some user attached.  The Supabase client is modelled by the list of
stored disaster rows plus, for `GET /disasters`, an oracle for the
query's outcome. -/

structure User where
  id : String
  role : String
deriving DecidableEq, Repr

/-- A `io.emit` performed by a route handler. -/
inductive ServerEmit where
  | disasterUpdated (action : DisasterAction)
  | socialMediaUpdated (disaster_id : String) (data : List Post)
  | reportCreated (disaster_id : String) (report : Report)
deriving DecidableEq, Repr

/-- Status, optional error body, the stored rows after the request, and
the events emitted. -/
structure RouteResult where
  status : Nat
  error : Option String
  db : List DisasterRec
  emits : List ServerEmit
deriving DecidableEq, Repr

/-- The `{ ...updates }` spread of `PUT /disasters/:id`: each key of the
request body overwrites the matching column. -/
def applyUpdates (d : DisasterRec) (updates : List (String × String)) : DisasterRec :=
  updates.foldl
    (fun d kv =>
      match kv.1 with
      | "title" => { d with title := kv.2 }
      | "location_name" => { d with location_name := kv.2 }
      | "description" => { d with description := kv.2 }
      | "status" => { d with status := kv.2 }
      | "disaster_type" => { d with disaster_type := kv.2 }
      | _ => d)
    d

/-- `PUT /disasters/:id` (lines 759-800).  Fetches `audit_trail, owner_id`
of the row, rejects with 403 unless the requester owns the row or is an
admin (`current?.owner_id !== req.user.id && req.user.role !== 'admin'`;
a missing row has `undefined` owner), otherwise appends an audit entry,
applies the updates, emits `disaster_updated {action:'update'}` and
returns 200.  An update that matches no row makes `.single()` throw,
caught as a 500. -/
def putDisaster (db : List DisasterRec) (user : User) (id : String)
    (updates : List (String × String)) : RouteResult :=
  let current := db.find? (fun d => d.id == id)
  let ownerOk : Bool := match current with
    | some c => c.owner_id == user.id
    | none => false
  if !ownerOk && user.role != "admin" then
    ⟨403, some "Insufficient permissions", db, []⟩
  else
    match current with
    | some c =>
      let c' := { applyUpdates c updates with
                  audit_trail := c.audit_trail ++ [⟨"update", user.id, updates.map (·.1)⟩] }
      ⟨200, none, db.map (fun d => if d.id == id then c' else d),
       [.disasterUpdated (.update c')]⟩
    | none => ⟨500, some "JSON object requested, multiple (or no) rows returned", db, []⟩

/-- `DELETE /disasters/:id` (lines 802-832).  Same permission gate, then
deletes the row (a delete matching no row is not an error for Supabase),
emits `disaster_updated {action:'delete', id}` and returns 204. -/
def deleteDisaster (db : List DisasterRec) (user : User) (id : String) : RouteResult :=
  let disaster := db.find? (fun d => d.id == id)
  let ownerOk : Bool := match disaster with
    | some c => c.owner_id == user.id
    | none => false
  if !ownerOk && user.role != "admin" then
    ⟨403, some "Insufficient permissions", db, []⟩
  else
    ⟨204, none, db.filter (fun d => !(d.id == id)), [.disasterUpdated (.delete id)]⟩

/-- The two hard-coded rows `GET /disasters` returns when the Supabase
client was never configured (lines 681-706). -/
def mockDisastersNoSupabase : List DisasterRec :=
  [⟨"1", "Sample Flood Emergency", "Sample City, State",
    "This is sample data - Supabase connection not available",
    "active", "flood", ["urgent", "flood", "help"], "", []⟩,
   ⟨"2", "Sample Earthquake Alert", "Another City, State",
    "This is sample data - Supabase connection not available",
    "monitoring", "earthquake", ["earthquake", "alert"], "", []⟩]

/-- The hard-coded row the `catch` block of `GET /disasters` returns when
the query throws (lines 748-761). -/
def mockDisastersOnError : List DisasterRec :=
  [⟨"error-1", "Database Connection Error", "System Status",
    "Unable to connect to database. This is sample data.",
    "pending", "other", ["system", "error"], "", []⟩]

/-- `GET /disasters` (lines 678-756): status and JSON-array body.
`supabaseAvailable` is whether the client object exists; `queryResult`
is the filtered query's outcome (`ok none` models a null `data`, sent as
`data || []`). -/
def getDisasters (supabaseAvailable : Bool)
    (queryResult : Except String (Option (List DisasterRec))) :
    Nat × List DisasterRec :=
  if !supabaseAvailable then
    (200, mockDisastersNoSupabase)
  else
    match queryResult with
    | .ok data => (200, data.getD [])
    | .error _ => (200, mockDisastersOnError)

/-- The `rateLimit` middleware (lines 126-148), installed globally by
`app.use(rateLimit)` at line 150, so it runs before every route handler.
For one client IP: `times` is that IP's stored timestamp list, `now` the
current time in ms.

```js
const windowStart = now - windowMs;
const requests = rateLimitStore.get(clientIp).filter(time => time > windowStart);
if (requests.length >= maxRequests) {
  return res.status(429).json({ error: 'Too many requests' });
}
requests.push(now);
rateLimitStore.set(clientIp, requests);
next();
```

Returns `some (429, msg)` with the store untouched (the filtered array
is not written back on the 429 path), or `none` (pass) with the filtered
store plus `now`.  Defaults: `windowMs` 900000 (15 min), `maxRequests`
100. -/
def rateLimitCheck (times : List Nat) (now windowMs maxRequests : Nat) :
    Option (Nat × String) × List Nat :=
  let requests := times.filter
    (fun t : Nat => decide ((now : Int) - (windowMs : Int) < (t : Int)))
  if maxRequests ≤ requests.length then
    (some (429, "Too many requests"), times)
  else
    (none, requests ++ [now])

/-- A full `GET /disasters` response: status plus either an error body
(`{error: ...}`) or a JSON-array body. -/
structure GetDisastersResponse where
  status : Nat
  body : Except String (List DisasterRec)
deriving Repr

/-- `GET /disasters` as the server answers it: the global rate limiter
first, then the route handler; returns the response and the client's
updated timestamp store. -/
def getDisastersRoute (times : List Nat) (now windowMs maxRequests : Nat)
    (supabaseAvailable : Bool)
    (queryResult : Except String (Option (List DisasterRec))) :
    GetDisastersResponse × List Nat :=
  let check := rateLimitCheck times now windowMs maxRequests
  match check.1 with
  | some sm => (⟨sm.1, .error sm.2⟩, check.2)
  | none =>
    (⟨(getDisasters supabaseAvailable queryResult).1,
      .ok (getDisasters supabaseAvailable queryResult).2⟩, check.2)

/-! ## Concrete fixtures used by witnesses and counterexamples -/

/-- An oracle under which the primary endpoint is down and the local
fallback is up. -/
def okFailPrimary : Endpoint → Bool
  | .primary => false
  | .fallback => true

/-- A concrete disaster row. -/
def exDisaster : DisasterRec :=
  ⟨"d1", "NYC Flood", "Manhattan, NYC", "Heavy flooding", "active", "flood",
   ["flood", "urgent"], "netrunnerX", []⟩

/-- Two live connections; connection 0 has joined room `disaster_D1`,
connection 1 has joined nothing. -/
def exServerState : ServerState :=
  ⟨[0, 1], fun c d => c == 0 && d == "D1"⟩

/-! # Theorems -/

/-! ### Connectivity fallback layer -/

/-- Once `API_BASE` is the fallback it stays the fallback after any call. -/
theorem apiCall_fallback_base (ok : Endpoint → Bool) :
    (apiCall ok .fallback).2 = .fallback := by
  unfold apiCall
  by_cases h : ok .fallback = true <;> simp [h]

/-- From a fallback base, every attempted endpoint is the fallback. -/
theorem apiCall_fallback_attempts (ok : Endpoint → Bool) :
    ∀ a ∈ (apiCall ok .fallback).1.attempts, a = Endpoint.fallback := by
  unfold apiCall
  by_cases h : ok .fallback = true <;> simp [h]

/-- `API_BASE` never leaves the fallback over a whole session tail. -/
theorem runCalls_fallback (oks : List (Endpoint → Bool)) :
    runCalls .fallback oks = .fallback := by
  induction oks with
  | nil => rfl
  | cons ok oks ih => rw [runCalls, apiCall_fallback_base, ih]

/-- Every attempt of every later call from a fallback base targets fallback. -/
theorem callTrace_fallback (oks : List (Endpoint → Bool)) :
    ∀ o ∈ callTrace .fallback oks, ∀ a ∈ o.attempts, a = Endpoint.fallback := by
  induction oks with
  | nil => intro o ho; simp [callTrace] at ho
  | cons ok oks ih =>
    intro o ho
    rw [callTrace, apiCall_fallback_base] at ho
    rcases List.mem_cons.mp ho with h | h
    · exact h ▸ apiCall_fallback_attempts ok
    · exact ih o h

/-! ### Persistent-connection fallback -/

/-- Once the timer is cleared it never re-arms, and the switch-notification
count and socket url are frozen. -/
theorem sockRun_timer_dead (es : List SockEvent) :
    ∀ s : SockState, s.timerActive = false →
      (sockRun s es).switchedNotifs = s.switchedNotifs ∧
      (sockRun s es).url = s.url ∧
      (sockRun s es).timerActive = false := by
  induction es with
  | nil => intro s h; exact ⟨rfl, rfl, h⟩
  | cons e es ih =>
    intro s h
    have hstep : (sockStep s e).switchedNotifs = s.switchedNotifs ∧
        (sockStep s e).url = s.url ∧ (sockStep s e).timerActive = false := by
      cases e <;> simp [sockStep, h]
    rw [sockRun]
    obtain ⟨h1, h2, h3⟩ := ih (sockStep s e) hstep.2.2
    exact ⟨h1.trans hstep.1, h2.trans hstep.2.1, h3⟩

theorem sockStep_inv {s : SockState} (h : SockInv s) (e : SockEvent) :
    SockInv (sockStep s e) := by
  obtain ⟨h1, h2⟩ := h
  cases e with
  | connectOk => exact ⟨by simp [sockStep], by simpa [sockStep] using h2⟩
  | disconnect => exact ⟨by simpa [sockStep] using h1, by simpa [sockStep] using h2⟩
  | timeoutFire =>
    by_cases ht : s.timerActive = true
    · have h0 := h1 ht
      by_cases hu : s.url = Endpoint.fallback <;>
        simp [sockStep, SockInv, ht, hu, h0]
    · simp only [Bool.not_eq_true] at ht
      simp only [sockStep, ht, Bool.false_eq_true, if_false]
      exact ⟨h1, h2⟩

theorem sockRun_inv (es : List SockEvent) :
    ∀ s : SockState, SockInv s → SockInv (sockRun s es) := by
  induction es with
  | nil => intro s h; exact h
  | cons e es ih => intro s h; exact ih _ (sockStep_inv h e)

/-! ### Server-side fan-out -/

/-- Deliveries are sublists of the connection list. -/
theorem deliver_sublist (st : ServerState) (e : SocketEvent) :
    (deliver st e).Sublist st.conns := by
  cases e with
  | userLocationUpdate d sender =>
    exact ((st.conns.filter (fun c => st.rooms c d)).filter_sublist).trans
      st.conns.filter_sublist
  | reportCreated d => exact List.Sublist.refl _
  | socialMediaRoute d => exact List.Sublist.refl _
  | socialMediaPeriodic d => exact st.conns.filter_sublist
  | officialUpdatesPeriodic d => exact st.conns.filter_sublist
  | disasterUpdated => exact List.Sublist.refl _
  | emergencyAlertScoped d => exact st.conns.filter_sublist
  | emergencyAlertGlobal => exact List.Sublist.refl _

/-- With a duplicate-free connection list, no connection ever receives a
single emission twice. -/
theorem deliver_count_le_one {st : ServerState} (h : st.conns.Nodup)
    (e : SocketEvent) (c : ConnId) : (deliver st e).count c ≤ 1 := by
  calc (deliver st e).count c ≤ st.conns.count c :=
        (deliver_sublist st e).count_le c
    _ ≤ 1 := List.nodup_iff_count_le_one.mp h c

/-! ### Claim C3: one-way fallback latch for REST calls -/

/-- C3: once a REST call has failed on the primary endpoint and succeeded
on the fallback, `API_BASE` is latched to the fallback; from then on every
subsequent call in the session attempts only the fallback endpoint, and
the active endpoint never switches back to primary. -/
theorem fallback_latch (ok : Endpoint → Bool)
    (hp : ok .primary = false) (hf : ok .fallback = true) :
    (apiCall ok .primary).2 = .fallback ∧
    ∀ oks : List (Endpoint → Bool),
      runCalls .fallback oks = .fallback ∧
      ∀ o ∈ callTrace .fallback oks, ∀ a ∈ o.attempts, a = Endpoint.fallback := by
  refine ⟨?_, fun oks => ⟨runCalls_fallback oks, callTrace_fallback oks⟩⟩
  unfold apiCall
  simp [hp, hf]

/-- C3 witness: with the primary down and the fallback up, one failing
call latches the base to the fallback, and a follow-up call leaves it
there. -/
theorem fallback_latch_witness :
    (apiCall okFailPrimary .primary).2 = .fallback ∧
    runCalls .fallback [okFailPrimary] = .fallback := by
  obtain ⟨h1, h2⟩ := fallback_latch okFailPrimary rfl rfl
  exact ⟨h1, (h2 [okFailPrimary]).1⟩

/-! ### Claim C7: at most two attempts, single aggregated failure -/

/-- C7: each `apiCall` attempts the active endpoint first; on a failure of
that attempt it attempts the fallback exactly once; if both fail the
caller gets the single aggregated error, and no call makes more than two
attempts. -/
theorem apiCall_attempt_policy (ok : Endpoint → Bool) (base : Endpoint) :
    (apiCall ok base).1.attempts.head? = some base ∧
    (apiCall ok base).1.attempts.length ≤ 2 ∧
    (ok base = true → (apiCall ok base).1 = ⟨[base], .ok ()⟩) ∧
    (ok base = false →
      (apiCall ok base).1.attempts = [base, .fallback] ∧
      (ok .fallback = true → (apiCall ok base).1.result = .ok ()) ∧
      (ok .fallback = false → (apiCall ok base).1.result =
        .error "API Error: Both primary and fallback servers unavailable")) := by
  unfold apiCall
  by_cases h : ok base = true
  · simp [h]
  · simp only [Bool.not_eq_true] at h
    by_cases h2 : ok Endpoint.fallback = true <;> simp [h, h2]

/-- C7 witness: with the primary down and the fallback up, a call from
the primary base attempts primary then fallback — exactly two attempts. -/
theorem apiCall_attempt_policy_witness :
    (apiCall okFailPrimary .primary).1.attempts = [.primary, .fallback] :=
  (((apiCall_attempt_policy okFailPrimary .primary).2.2.2) rfl).1

/-! ### Claim C4: socket fallback timeout -/

/-- C4: if the 8-second timer fires while still armed (the connection has
not connected, since `connect` clears it) and the socket url is still the
primary, the client switches the url to the fallback, re-opens the
connection against it, and emits exactly one \x27Switched to local
server\x27 notification — the count stays at one over any continuation;
a `connect` before the timeout clears the timer, after which the pending
switch never fires; and from mount at most one switch notification is
ever emitted. -/
theorem socket_fallback_timeout (s : SockState) (es : List SockEvent)
    (ht : s.timerActive = true) (hu : s.url = .primary) :
    (sockStep s .timeoutFire).url = .fallback ∧
    (sockStep s .timeoutFire).opens = s.opens ++ [.fallback] ∧
    (sockStep s .timeoutFire).switchedNotifs = s.switchedNotifs + 1 ∧
    (sockRun (sockStep s .timeoutFire) es).switchedNotifs = s.switchedNotifs + 1 ∧
    (sockRun (sockStep s .timeoutFire) es).url = .fallback ∧
    (sockStep s .connectOk).timerActive = false ∧
    (sockRun (sockStep s .connectOk) es).switchedNotifs = s.switchedNotifs ∧
    (sockRun (sockInit .primary) es).switchedNotifs ≤ 1 := by
  have hfire : sockStep s .timeoutFire =
      { s with timerActive := false, url := .fallback,
               opens := s.opens ++ [.fallback],
               switchedNotifs := s.switchedNotifs + 1 } := by
    simp [sockStep, ht, hu]
  have hdead := sockRun_timer_dead es (sockStep s .timeoutFire) (by rw [hfire])
  have hconn := sockRun_timer_dead es (sockStep s .connectOk) (by simp [sockStep])
  refine ⟨by rw [hfire], by rw [hfire], by rw [hfire], ?_, ?_, by simp [sockStep], ?_, ?_⟩
  · rw [hdead.1, hfire]
  · rw [hdead.2.1, hfire]
  · rw [hconn.1]; simp [sockStep]
  · exact (sockRun_inv es (sockInit .primary) ⟨fun _ => rfl, Nat.zero_le 1⟩).2

/-- C4 witness: from the mount state (timer armed, primary url), the
timeout switches to the fallback and emits the single notification. -/
theorem socket_fallback_timeout_witness :
    (sockStep (sockInit .primary) .timeoutFire).url = .fallback ∧
    (sockStep (sockInit .primary) .timeoutFire).switchedNotifs = 1 := by
  obtain ⟨h1, _, h3, _⟩ := socket_fallback_timeout (sockInit .primary) [] rfl rfl
  exact ⟨h1, h3⟩

/-! ### Claim C1: scoped delivery -/

/-- C1 counterexample: connection 1 has never joined room `disaster_D1`
(its membership is `false`), yet both a `report_created` and a
route-level `social_media_updated` emission for disaster `D1` are
delivered to it, because both use `io.emit` (broadcast to every socket).
This falsifies the claim that disaster-scoped events reach only
subscribed connections. -/
theorem scoped_events_leak_cex :
    exServerState.rooms 1 "D1" = false ∧
    (1 : ConnId) ∈ deliver exServerState (.reportCreated "D1") ∧
    (1 : ConnId) ∈ deliver exServerState (.socialMediaRoute "D1") := by
  refine ⟨rfl, ?_, ?_⟩ <;> simp [deliver, exServerState]

/-- C1 amended: emissions that use `io.emit` — `report_created`, the
route-level `social_media_updated`, `disaster_updated`, and the global
`emergency_alert` — are delivered to every connection regardless of
subscriptions; only the periodic `social_media_updated` and
`official_updates_updated` and the disaster-scoped `emergency_alert`
(`io.to(room)`) are delivered solely to the connections subscribed to
that disaster; global-scope events go to all connections. -/
theorem deliver_by_emission_site (st : ServerState) (d : DisasterId) :
    deliver st (.reportCreated d) = st.conns ∧
    deliver st (.socialMediaRoute d) = st.conns ∧
    deliver st .disasterUpdated = st.conns ∧
    deliver st .emergencyAlertGlobal = st.conns ∧
    deliver st (.socialMediaPeriodic d) = st.conns.filter (fun c => st.rooms c d) ∧
    deliver st (.officialUpdatesPeriodic d) = st.conns.filter (fun c => st.rooms c d) ∧
    deliver st (.emergencyAlertScoped d) = st.conns.filter (fun c => st.rooms c d) :=
  ⟨rfl, rfl, rfl, rfl, rfl, rfl, rfl⟩

/-! ### Claim C6: idempotent subscription -/

/-- C6: joining room `disaster_d` twice yields exactly the same
subscription state as joining it once (`socket.join` adds to a set), so
the deliveries of every subsequent emission coincide; and with a
duplicate-free connection list a doubly-subscribed connection receives a
room-scoped emission for `d` exactly once, and any emission at most
once. -/
theorem join_disaster_idempotent (st : ServerState) (c : ConnId) (d : DisasterId)
    (hnodup : st.conns.Nodup) (hc : c ∈ st.conns) :
    joinDisaster (joinDisaster st c d) c d = joinDisaster st c d ∧
    (∀ e, deliver (joinDisaster (joinDisaster st c d) c d) e =
          deliver (joinDisaster st c d) e) ∧
    (deliver (joinDisaster st c d) (.emergencyAlertScoped d)).count c = 1 ∧
    (∀ e, (deliver (joinDisaster (joinDisaster st c d) c d) e).count c ≤ 1) := by
  have hjoin : joinDisaster (joinDisaster st c d) c d = joinDisaster st c d := by
    simp only [joinDisaster]
    congr 1
    funext c' d'
    by_cases h : c' = c ∧ d' = d <;> simp [h]
  refine ⟨hjoin, fun e => by rw [hjoin], ?_, ?_⟩
  · have hmem : c ∈ (joinDisaster st c d).conns.filter
        (fun x => (joinDisaster st c d).rooms x d) := by
      rw [List.mem_filter]
      exact ⟨hc, by simp [joinDisaster]⟩
    exact List.count_eq_one_of_mem
      (List.Nodup.filter _ (show (joinDisaster st c d).conns.Nodup from hnodup)) hmem
  · intro e
    exact deliver_count_le_one (show (joinDisaster (joinDisaster st c d) c d).conns.Nodup
      from hnodup) e c

/-- C6 witness: on a concrete two-connection registry, the double join
equals the single join, and connection 0 receives a `D1`-scoped
emergency alert exactly once. -/
theorem join_disaster_idempotent_witness :
    joinDisaster (joinDisaster ⟨[0, 1], fun _ _ => false⟩ 0 "D1") 0 "D1" =
      joinDisaster ⟨[0, 1], fun _ _ => false⟩ 0 "D1" ∧
    (deliver (joinDisaster ⟨[0, 1], fun _ _ => false⟩ 0 "D1")
        (.emergencyAlertScoped "D1")).count 0 = 1 := by
  obtain ⟨h1, _, h3, _⟩ := join_disaster_idempotent ⟨[0, 1], fun _ _ => false⟩ 0 "D1"
    (by decide) (by decide)
  exact ⟨h1, h3⟩

/-! ### Claim C2: disaster-created reconciliation -/

/-- C2 counterexample: applying the same `disaster_updated/create` event
twice to the empty list yields two copies of the entity — the handler
prepends unconditionally, with no identity check — so the list does not
hold exactly one copy as the claim requires. -/
theorem disaster_create_not_idempotent_cex :
    (handleDisasterUpdated (handleDisasterUpdated ⟨[], none, [], [], []⟩
        (.create exDisaster)) (.create exDisaster)).disasters
      = [exDisaster, exDisaster] ∧
    (handleDisasterUpdated (handleDisasterUpdated ⟨[], none, [], [], []⟩
        (.create exDisaster)) (.create exDisaster)).disasters.count exDisaster ≠ 1 := by
  exact ⟨rfl, by decide⟩

/-- C2 amended: the handler prepends the event's entity unconditionally
(newest first), even when an entity with the same identity is already
present; applying the same `disaster-created` event twice prepends it
twice, leaving the entity's multiplicity raised by exactly two. -/
theorem disaster_create_prepends (st : ClientState) (d : DisasterRec) :
    (handleDisasterUpdated st (.create d)).disasters = d :: st.disasters ∧
    (handleDisasterUpdated (handleDisasterUpdated st (.create d))
        (.create d)).disasters = d :: d :: st.disasters ∧
    (handleDisasterUpdated (handleDisasterUpdated st (.create d))
        (.create d)).disasters.count d = st.disasters.count d + 2 := by
  refine ⟨rfl, rfl, ?_⟩
  show (d :: d :: st.disasters).count d = st.disasters.count d + 2
  simp [List.count_cons_self]

/-! ### Claim C5: disaster-deleted reconciliation -/

/-- C5 counterexample: the local list holds the entity with id `d1` and a
`disaster_updated/delete` event for `d1` arrives, yet the entity is still
in the list — the handler has no branch for `action === 'delete'` — so
the claimed removal does not happen. -/
theorem disaster_delete_ignored_cex :
    (handleDisasterUpdated ⟨[exDisaster], none, [], [], []⟩
        (.delete "d1")).disasters = [exDisaster] ∧
    (handleDisasterUpdated ⟨[exDisaster], none, [], [], []⟩
        (.delete "d1")).disasters ≠ [] := by
  exact ⟨rfl, by decide⟩

/-- C5 amended: the client handler ignores `disaster-deleted` events
entirely — the state is left unchanged whether or not an entity with the
event's identity is present. -/
theorem disaster_delete_noop (st : ClientState) (id : String) :
    handleDisasterUpdated st (.delete id) = st := rfl

/-! ### Claim C8: scoped events filtered by selection -/

/-- C8: the program's handler instance closes over the mount-render
`selectedDisaster`, which is `null` (`useState(null)`, effect deps `[]`),
so `selectedMatches none` is false for every `disaster_id` and the
handlers leave the state unchanged no matter what is selected now.  In
particular — the failing input — with disaster `d1` currently selected,
a `report_created` and a `social_media_updated` scoped to `d1` itself
are NOT applied: the reports list stays empty and the social-media list
is not replaced, where the claim (and the guard the handler was plainly
written to implement) requires the payload to be applied on a matching
scope.  The mismatch half of the claim does hold: events for non-selected
disasters never touch the state. -/
theorem scoped_events_stale_closure :
    (∀ (st : ClientState) (did : String) (r : Report) (posts : List Post),
      handleReportCreated none st did r = st ∧
      handleSocialMediaUpdated none st did posts = st ∧
      handleOfficialUpdates none st did = st) ∧
    handleReportCreated none ⟨[exDisaster], some exDisaster, [], [], []⟩ "d1"
        ⟨"r1", "d1", "water rising"⟩ =
      ⟨[exDisaster], some exDisaster, [], [], []⟩ ∧
    (handleReportCreated none ⟨[exDisaster], some exDisaster, [], [], []⟩ "d1"
        ⟨"r1", "d1", "water rising"⟩).reports = [] ∧
    handleSocialMediaUpdated none ⟨[exDisaster], some exDisaster, [], [], []⟩ "d1"
        [⟨"p1", "need help"⟩] =
      ⟨[exDisaster], some exDisaster, [], [], []⟩ :=
  ⟨fun _ _ _ _ => ⟨rfl, rfl, rfl⟩, rfl, rfl, rfl⟩

/-! ### Claim C9: permission gate on disaster update and delete -/

/-- C9: when the stored row for `id` exists and the requesting user is
neither its owner nor an admin, both `PUT /disasters/:id` and
`DELETE /disasters/:id` answer 403 with the `Insufficient permissions`
error, leave the stored rows untouched (no update, no audit-trail
append, no delete) and emit no `disaster_updated` event. -/
theorem disaster_mutation_permission_denied (db : List DisasterRec) (user : User)
    (id : String) (updates : List (String × String)) (c : DisasterRec)
    (hfind : db.find? (fun d => d.id == id) = some c)
    (howner : c.owner_id ≠ user.id) (hrole : user.role ≠ "admin") :
    putDisaster db user id updates = ⟨403, some "Insufficient permissions", db, []⟩ ∧
    deleteDisaster db user id = ⟨403, some "Insufficient permissions", db, []⟩ := by
  have howner' : (c.owner_id == user.id) = false := beq_eq_false_iff_ne.mpr howner
  have hrole' : (user.role != "admin") = true := bne_iff_ne.mpr hrole
  constructor
  · unfold putDisaster
    simp [hfind, howner', hrole']
  · unfold deleteDisaster
    simp [hfind, howner', hrole']

/-- C9 witness: the contributor `citizen1` can neither update nor delete
the disaster owned by `netrunnerX`; both requests 403 and the row
survives unchanged. -/
theorem disaster_mutation_permission_denied_witness :
    putDisaster [exDisaster] ⟨"citizen1", "contributor"⟩ "d1" [("title", "Hacked")] =
      ⟨403, some "Insufficient permissions", [exDisaster], []⟩ ∧
    deleteDisaster [exDisaster] ⟨"citizen1", "contributor"⟩ "d1" =
      ⟨403, some "Insufficient permissions", [exDisaster], []⟩ :=
  disaster_mutation_permission_denied [exDisaster] ⟨"citizen1", "contributor"⟩ "d1"
    [("title", "Hacked")] exDisaster (by decide) (by decide) (by decide)

/-! ### Claim C10: `GET /disasters` never errors -/

/-- C10 counterexample: a client with 100 stored request timestamps
inside the 15-minute window issues a `GET /disasters`; the globally
installed rate limiter answers 429 with the `Too many requests` error
body before the handler runs, so not every `GET /disasters` request
yields a 200 response carrying a JSON array — even with the database
healthy. -/
theorem get_disasters_rate_limit_cex :
    (getDisastersRoute (List.replicate 100 1) 900000 900000 100 true
        (.ok (some []))).1 = ⟨429, .error "Too many requests"⟩ ∧
    (getDisastersRoute (List.replicate 100 1) 900000 900000 100 true
        (.ok (some []))).1.status ≠ 200 := by
  have h : (getDisastersRoute (List.replicate 100 1) 900000 900000 100 true
      (.ok (some []))).1 = ⟨429, .error "Too many requests"⟩ := rfl
  exact ⟨h, by rw [h]; decide⟩

/-- C10 amended: a `GET /disasters` request that passes the global rate
limiter never gets an error status: the handler answers 200 with a JSON
array on every path — the non-empty hard-coded sample list when the
Supabase client is missing, the non-empty error placeholder list when
the query throws, the queried rows (`[]` for a null result) otherwise;
a request from a client that already made `maxRequests` requests inside
the window is instead answered 429 with an error body by the rate
limiter. -/
theorem get_disasters_route_ok (times : List Nat)
    (now windowMs maxRequests : Nat) (avail : Bool)
    (qr : Except String (Option (List DisasterRec)))
    (e : String) (l : List DisasterRec) :
    (¬ maxRequests ≤ (times.filter
        (fun t : Nat => decide ((now : Int) - (windowMs : Int) < (t : Int)))).length →
      (getDisastersRoute times now windowMs maxRequests avail qr).1 =
        ⟨200, .ok (getDisasters avail qr).2⟩) ∧
    (maxRequests ≤ (times.filter
        (fun t : Nat => decide ((now : Int) - (windowMs : Int) < (t : Int)))).length →
      (getDisastersRoute times now windowMs maxRequests avail qr).1 =
        ⟨429, .error "Too many requests"⟩) ∧
    (getDisasters avail qr).1 = 200 ∧
    getDisasters false qr = (200, mockDisastersNoSupabase) ∧
    getDisasters true (.error e) = (200, mockDisastersOnError) ∧
    getDisasters true (.ok (some l)) = (200, l) ∧
    getDisasters true (.ok none) = (200, []) ∧
    mockDisastersNoSupabase ≠ [] ∧
    mockDisastersOnError ≠ [] := by
  have h200 : (getDisasters avail qr).1 = 200 := by
    cases avail <;> rcases qr with e' | d <;> simp [getDisasters]
  refine ⟨?_, ?_, h200, rfl, rfl, rfl, rfl, by decide, by decide⟩
  · intro h
    simp only [getDisastersRoute, rateLimitCheck, if_neg h]
    rw [← h200]
  · intro h
    simp only [getDisastersRoute, rateLimitCheck, if_pos h]

/-- C10 witness: a first request from a fresh client passes the limiter
and gets the 200 sample-list response, and a saturated client gets the
429 error. -/
theorem get_disasters_route_ok_witness :
    (getDisastersRoute [] 900000 900000 100 false (.ok none)).1 =
      ⟨200, .ok mockDisastersNoSupabase⟩ ∧
    (getDisastersRoute (List.replicate 100 1) 900000 900000 100 false
        (.ok none)).1 = ⟨429, .error "Too many requests"⟩ := by
  constructor
  · exact (get_disasters_route_ok [] 900000 900000 100 false (.ok none) "" []).1
      (by decide)
  · exact (get_disasters_route_ok (List.replicate 100 1) 900000 900000 100 false
      (.ok none) "" []).2.1 (by decide)

end Disaster
